import Mathlib

/-
  Verification development for the tt-bots trading scripts.

  The definitions below are shallow embeddings of the Python functions in the
  repository: OCC option-symbol builders, the two order-fulfillment pollers
  (`wait_for_order_fill` and `debug_order_status`), the two shadowing
  `wait_for_balance_update` helpers, the reconciliation comparison in the SGOV
  script's `main`, the order-payload builders, and the logout/cleanup control
  flow of the script entry points.

  Conventions of the embedding:
  * Python floats are modelled as rationals; every concrete input used in a
    theorem is exact in binary floating point, so the comparisons coincide.
  * Strings processed character by character (the OCC builders) are modelled
    as `List Char`; strings only compared for equality stay `String`.
  * Network I/O is modelled by feeding the poller a list of scripted
    responses, one per loop iteration; wall-clock time is modelled by the
    exact amounts the code sleeps between iterations.
  * A `fill-id` of `""` models a missing / falsy fill identifier.
-/

namespace TTBots

/-
  Rational arithmetic. The library's Rat.add / Rat.sub / Rat.mul are
  irreducible, so the embedding uses the following definitionally
  transparent equivalents (the bridge lemmas qAdd_eq, qSub_eq, qMul_eq,
  qAbs_eq below prove them equal to the standard operations); this keeps
  every concrete run of the embedded code evaluable by the kernel.
-/

/-- Addition on ℚ, kernel-computable. -/
def qAdd (a b : ℚ) : ℚ := Rat.divInt (a.num * b.den + b.num * a.den) (a.den * b.den)

/-- Subtraction on ℚ, kernel-computable. -/
def qSub (a b : ℚ) : ℚ := Rat.divInt (a.num * b.den - b.num * a.den) (a.den * b.den)

/-- Multiplication on ℚ, kernel-computable. -/
def qMul (a b : ℚ) : ℚ := Rat.divInt (a.num * b.num) (a.den * b.den)

/-- Absolute value on ℚ, kernel-computable. -/
def qAbs (a : ℚ) : ℚ := if a < 0 then -a else a

/-- Floor of a rational, kernel-computable. -/
def qFloor (q : ℚ) : ℤ := Int.fdiv q.num q.den

/-- Python str.upper on a character list. -/
def upperL (s : List Char) : List Char := s.map Char.toUpper

/-- Python expiry.replace with dash and empty string: removes every dash. -/
def stripDashes (s : List Char) : List Char := s.filter (fun c => c ≠ '-')

/-- Python int() on a rational: truncation toward zero
(numerator divided by positive denominator with Int t-division). -/
def py_int (q : ℚ) : ℤ := q.num / (q.den : ℤ)

/-- Python formatting of n as an 8-digit zero-padded decimal,
faithful to the source f-string for 0 ≤ n < 10^8 (valid strikes). -/
def pad8 (n : ℕ) : List Char :=
  [Nat.digitChar (n / 10000000 % 10), Nat.digitChar (n / 1000000 % 10),
   Nat.digitChar (n / 100000 % 10), Nat.digitChar (n / 10000 % 10),
   Nat.digitChar (n / 1000 % 10), Nat.digitChar (n / 100 % 10),
   Nat.digitChar (n / 10 % 10), Nat.digitChar (n % 10)]

/-- The strike encoding shared by all three builders: int(strike * 1000), 8 digits. -/
def strike_pad (strike : ℚ) : List Char := pad8 (py_int (qMul strike 1000)).toNat

namespace PositionPlanner

/-- build_occ from tt_risk_reversal_planner/position_planner.py:
root upper-cased, ljust(6) then sliced to 6, expiry dashes removed and first
two digits dropped, option type upper-cased, strike encoded as x1000 8-digit. -/
def build_occ (underlying expiry opt_type : List Char) (strike : ℚ) : List Char :=
  let exp := (stripDashes expiry).drop 2
  let root := upperL underlying
  let padded := (root ++ List.replicate (6 - root.length) ' ').take 6
  padded ++ exp ++ upperL opt_type ++ strike_pad strike

end PositionPlanner

namespace TqqqMono

/-- build_occ from tt_risk_reversal_tqqq_mono/tt-tqqq-risk-reversal-0-KEEPER.py:
root upper-cased and sliced to 6, then padded with a slice of a TWO-space
string, so at most two spaces of padding are ever appended. -/
def build_occ (underlying expiry opt_type : List Char) (strike : ℚ) : List Char :=
  let exp := (stripDashes expiry).drop 2
  let root := (upperL underlying).take 6
  let padded := root ++ ([' ', ' ']).take (6 - root.length)
  padded ++ exp ++ upperL opt_type ++ strike_pad strike

end TqqqMono

namespace SymbolsTest

/-- build_option_symbol from tt_test_SymbolsEnv/tt-test-occ-symbol.py: same
two-space padding as the mono script, followed by the function's own
assert on the length; an assertion failure is modelled as none. -/
def build_option_symbol (underlying expiry opt_type : List Char) (strike : ℚ) :
    Option (List Char) :=
  let exp := (stripDashes expiry).drop 2
  let root0 := upperL underlying
  let root := if root0.length > 6 then root0.take 6 else root0
  let padded := root ++ ([' ', ' ']).take (6 - root.length)
  let sym := padded ++ exp ++ upperL opt_type ++ strike_pad strike
  if sym.length = 21 then some sym else none

end SymbolsTest

/-- A fill entry of an order-status response: fill-id, quantity, price and
timestamp as read by debug_order_status; fid "" models a missing id. -/
structure Fill where
  fid : String
  qty : ℚ
  price : ℚ
  ts : String
  deriving DecidableEq

/-- One scripted response for a debug_order_status poll: either the request
raised (network error), or a JSON body with optional status and fill list. -/
inductive DebugResp
  | err : DebugResp
  | data (status : Option String) (fills : List Fill) : DebugResp
  deriving DecidableEq

/-- How a debug_order_status run ended: terminal status observed, or the
timeout message with the last seen status. -/
inductive DebugOutcome
  | finished (status : Option String) : DebugOutcome
  | timedOut (last : Option String) : DebugOutcome
  deriving DecidableEq

/-- Observable behaviour of one debug_order_status run: how it ended, the
fill lines printed (in order), the number of poll requests issued, and the
seen_fills set (the function attribute) after the run. -/
structure DebugResult where
  outcome : DebugOutcome
  printed : List Fill
  polls : ℕ
  seenAfter : List String
  deriving DecidableEq

/-- The exit condition of debug_order_status:
status in ("Filled", "Rejected", "Cancelled", "Expired"). -/
def isTerminalStatus (st : Option String) : Bool :=
  st == some "Filled" || st == some "Rejected" ||
  st == some "Cancelled" || st == some "Expired"

/-- The fill loop of debug_order_status: a fill is printed and its id added
to seen_fills iff the id is truthy and not already in seen_fills.
Returns the new seen set and the fills printed (in order). -/
def processFills : List String → List Fill → List String × List Fill
  | seen, [] => (seen, [])
  | seen, f :: fs =>
    if f.fid ≠ "" ∧ f.fid ∉ seen then
      let r := processFills (f.fid :: seen) fs
      (r.1, f :: r.2)
    else
      processFills seen fs

/-- The polling loop of debug_order_status (the later, shadowing definition in
tt-tqqq-risk-reversal-1.py): one scripted response consumed per iteration,
sleep 2 after a non-terminal response or a poll error, exit-terminal check
performed after the fill loop. Running off the scripted list ends the run
like the timeout does. -/
def debugGo (timeout : ℚ) : List DebugResp → ℚ → Option String → List String → DebugResult
  | [], _, last, seen => ⟨.timedOut last, [], 0, seen⟩
  | .err :: rest, el, last, seen =>
    if el < timeout then
      let r := debugGo timeout rest (qAdd el 2) last seen
      ⟨r.outcome, r.printed, r.polls + 1, r.seenAfter⟩
    else ⟨.timedOut last, [], 0, seen⟩
  | .data st fills :: rest, el, last, seen =>
    if el < timeout then
      let pf := processFills seen fills
      if isTerminalStatus st then ⟨.finished st, pf.2, 1, pf.1⟩
      else
        let r := debugGo timeout rest (qAdd el 2) st pf.1
        ⟨r.outcome, pf.2 ++ r.printed, r.polls + 1, r.seenAfter⟩
    else ⟨.timedOut last, [], 0, seen⟩

/-- debug_order_status(api, order_id, account_number, timeout): seen0 is the
current value of the process-wide seen_fills function attribute (empty on the
first call of the process); the order id only appears in printed messages. -/
def debug_order_status (_orderId : String) (rs : List DebugResp) (timeout : ℚ)
    (seen0 : List String) : DebugResult :=
  debugGo timeout rs 0 none seen0

/-- Total quantity over a list of printed fill lines. -/
def totalQty : List Fill → ℚ
  | [] => 0
  | f :: fs => qAdd f.qty (totalQty fs)

/-- debug_order_status prints the order-fully-filled message exactly when its
terminal status is Filled. -/
def announcesFullyFilled (r : DebugResult) : Bool :=
  r.outcome == .finished (some "Filled")

/-- Index of the first response with a status in debug_order_status's
terminal set (list length when there is none). -/
def firstTerminalIdx : List DebugResp → ℕ
  | [] => 0
  | .err :: rest => firstTerminalIdx rest + 1
  | .data st _ :: rest => if isTerminalStatus st then 0 else firstTerminalIdx rest + 1

/-- The order object parsed from a 200 response by wait_for_order_fill:
status, filled-quantity, and the first leg's filled-price (none = absent). -/
structure OrderInfo where
  status : Option String
  filledQty : ℚ
  filledPrice : Option ℚ
  deriving DecidableEq

/-- One scripted response for a wait_for_order_fill poll: the request raised,
or an HTTP status code with an optionally parseable order body
(none models a parse exception). -/
inductive OrdResp
  | err : OrdResp
  | resp (code : ℕ) (parsed : Option OrderInfo) : OrdResp
  deriving DecidableEq

/-- Observable behaviour of one wait_for_order_fill run: the returned pair
(success flag, optional filled price), the number of poll requests issued,
the elapsed wall time at return, whether the return was the timeout path,
and the final value of the local filled_qty variable. -/
structure WfofResult where
  success : Bool
  price : Option ℚ
  polls : ℕ
  elapsed : ℚ
  timedOut : Bool
  lastFilledQty : ℚ
  deriving DecidableEq

/-- The polling loop of wait_for_order_fill (tt-tut5CashBalanceAfterSGOV.py):
request exception sleeps 1 and keeps the consecutive-401 counter; a 401
increments it and aborts at 3; any other code resets it; a 200 parse checks
status = Filled with |filled_qty - quantity| < 0.001, then
Rejected / Canceled; anything else sleeps 2. Running off the
scripted list ends the run like the timeout does. -/
def wfofGo (qty timeout : ℚ) : List OrdResp → ℚ → ℕ → ℚ → WfofResult
  | [], el, _, fq => ⟨false, none, 0, el, true, fq⟩
  | .err :: rest, el, consec, fq =>
    if el < timeout then
      let r := wfofGo qty timeout rest (qAdd el 1) consec fq
      ⟨r.success, r.price, r.polls + 1, r.elapsed, r.timedOut, r.lastFilledQty⟩
    else ⟨false, none, 0, el, true, fq⟩
  | .resp code parsed :: rest, el, consec, fq =>
    if el < timeout then
      if code = 401 then
        if consec + 1 ≥ 3 then ⟨false, none, 1, el, false, fq⟩
        else
          let r := wfofGo qty timeout rest (qAdd el 2) (consec + 1) fq
          ⟨r.success, r.price, r.polls + 1, r.elapsed, r.timedOut, r.lastFilledQty⟩
      else if code ≠ 200 then
        let r := wfofGo qty timeout rest (qAdd el 2) 0 fq
        ⟨r.success, r.price, r.polls + 1, r.elapsed, r.timedOut, r.lastFilledQty⟩
      else
        match parsed with
        | none =>
          let r := wfofGo qty timeout rest (qAdd el 2) 0 fq
          ⟨r.success, r.price, r.polls + 1, r.elapsed, r.timedOut, r.lastFilledQty⟩
        | some info =>
          if info.status = some "Filled" ∧ qAbs (qSub info.filledQty qty) < Rat.divInt 1 1000 then
            ⟨true, info.filledPrice, 1, el, false, info.filledQty⟩
          else if info.status = some "Rejected" ∨ info.status = some "Canceled" then
            ⟨false, none, 1, el, false, info.filledQty⟩
          else
            let r := wfofGo qty timeout rest (qAdd el 2) 0 info.filledQty
            ⟨r.success, r.price, r.polls + 1, r.elapsed, r.timedOut, r.lastFilledQty⟩
    else ⟨false, none, 0, el, true, fq⟩

/-- wait_for_order_fill(session, base_url, account, token, order_id, quantity,
timeout) over a list of scripted poll responses. -/
def wait_for_order_fill (rs : List OrdResp) (qty timeout : ℚ) : WfofResult :=
  wfofGo qty timeout rs 0 0 0

/-- A response on which wait_for_order_fill returns in its 200-parse branch:
Filled meeting the quantity condition, or Rejected, or Canceled. -/
def wfofTerminalResp (qty : ℚ) : OrdResp → Bool
  | .err => false
  | .resp _ none => false
  | .resp code (some info) =>
    code == 200 &&
      ((info.status == some "Filled" &&
          decide (qAbs (qSub info.filledQty qty) < Rat.divInt 1 1000)) ||
        info.status == some "Rejected" || info.status == some "Canceled")

/-- Index of the first response terminal for wait_for_order_fill
(list length when there is none). -/
def wfofFirstTerminalIdx (qty : ℚ) : List OrdResp → ℕ
  | [] => 0
  | r :: rest => if wfofTerminalResp qty r then 0 else wfofFirstTerminalIdx qty rest + 1

/-- The post-trade comparison in the SGOV script's main (the step-5 compare of
the logout/relogin verification): for Sell, cash must have strictly risen or
the position strictly fallen; for any other action (Buy), cash must have
strictly fallen or the position strictly risen. -/
def reconcile_filled (action : String) (cash_before new_cash pos_before new_pos : ℚ) : Bool :=
  let cash_changed : Bool :=
    if action = "Sell" then decide (new_cash > cash_before) else decide (new_cash < cash_before)
  let position_changed : Bool :=
    if action = "Sell" then decide (new_pos < pos_before) else decide (new_pos > pos_before)
  cash_changed || position_changed

/-- One leg of an order payload. -/
structure OrderLeg where
  instrument_type : String
  symbol : String
  quantity : ℕ
  action : String
  deriving DecidableEq

/-- An order payload as built by the submitters; numeric price kept as a
rational, absent for market orders. -/
structure OrderPayload where
  time_in_force : String
  order_type : String
  price : Option ℚ
  price_effect : String
  legs : List OrderLeg
  deriving DecidableEq

/-- Python str.upper on a String. -/
def upperS (s : String) : String := ⟨s.data.map Char.toUpper⟩

/-- needle matches at the start of the haystack. -/
def leadsWith : List Char → List Char → Bool
  | [], _ => true
  | _ :: _, [] => false
  | a :: as, b :: bs => a == b && leadsWith as bs

/-- Python substring membership: needle in haystack. -/
def hasSub (needle : List Char) : List Char → Bool
  | [] => leadsWith needle []
  | c :: rest => leadsWith needle (c :: rest) || hasSub needle rest

/-- place_order in tt-tut5CashBalanceAfterSGOV.py (payload part): api_action
from the upper-cased action, price-effect Debit iff the literal Buy occurs in
the api action, market order with a single equity leg. -/
def place_order_payload (action symbol : String) (quantity : ℕ) : OrderPayload :=
  let api_action := if upperS action = "BUY" then "Buy to Open" else "Sell to Close"
  let price_effect := if hasSub "Buy".toList api_action.toList then "Debit" else "Credit"
  { time_in_force := "Day", order_type := "Market", price := none,
    price_effect := price_effect,
    legs := [{ instrument_type := "Equity", symbol := symbol,
               quantity := quantity, action := api_action }] }

/-- place_buy_order in testOfficialSDK-stock-day.py (payload part). -/
def place_buy_order_payload (quantity : ℕ) (limit_price : ℚ) (time_in_force : String) :
    OrderPayload :=
  { time_in_force := time_in_force, order_type := "Limit", price := some limit_price,
    price_effect := "Debit",
    legs := [{ instrument_type := "Equity", symbol := "TQQQ",
               quantity := quantity, action := "Buy to Open" }] }

/-- place_sell_order in testOfficialSDK-stock-day.py (payload part). -/
def place_sell_order_payload (quantity : ℕ) (limit_price : ℚ) (time_in_force : String) :
    OrderPayload :=
  { time_in_force := time_in_force, order_type := "Limit", price := some limit_price,
    price_effect := "Credit",
    legs := [{ instrument_type := "Equity", symbol := "TQQQ",
               quantity := quantity, action := "Sell to Close" }] }

/-- One scripted response for a balance poll: non-200, 200 without a
cash-balance field, or 200 with a cash balance. -/
inductive BalResp
  | httpFail : BalResp
  | noCash : BalResp
  | cash (c : ℚ) : BalResp
  deriving DecidableEq

/-- Round-half-to-even to an integer, the tie-breaking Python round uses. -/
def roundHalfEvenInt (x : ℚ) : ℤ :=
  let f := qFloor x
  let frac := qSub x (f : ℚ)
  if frac < Rat.divInt 1 2 then f
  else if Rat.divInt 1 2 < frac then f + 1
  else if f % 2 = 0 then f else f + 1

/-- Python round(x, 2) on an exactly-represented value. -/
def round2 (x : ℚ) : ℚ := Rat.divInt (roundHalfEvenInt (qMul x 100)) 100

/-- The EARLIER wait_for_balance_update in tt-tut5CashBalanceAfterSGOV.py
(plain Authorization header): diff rounded to 2 decimals, accepted when
|diff - expected_change| ≤ tolerance; every iteration sleeps poll_interval
and adds it to elapsed; non-200 and missing-field polls are retried.
Defaults in the source: timeout 30, poll_interval 1, tolerance 1.00. -/
def wfbuV1Go (initial expected timeout interval tol : ℚ) : List BalResp → ℚ → Option ℚ
  | [], _ => none
  | r :: rest, el =>
    if el < timeout then
      match r with
      | .httpFail => wfbuV1Go initial expected timeout interval tol rest (qAdd el interval)
      | .noCash => wfbuV1Go initial expected timeout interval tol rest (qAdd el interval)
      | .cash c =>
        if qAbs (qSub (round2 (qSub c initial)) expected) ≤ tol then some c
        else wfbuV1Go initial expected timeout interval tol rest (qAdd el interval)
    else none

/-- Entry point of the earlier definition. -/
def wait_for_balance_update_v1 (rs : List BalResp) (initial expected timeout interval tol : ℚ) :
    Option ℚ :=
  wfbuV1Go initial expected timeout interval tol rs 0

/-- The LATER wait_for_balance_update in the same file (Bearer scheme): raw
delta, accepted when |delta - expected_change| < 2.0; a missing cash-balance
field defaults to 0. Defaults in the source: timeout 30, poll_interval 2. -/
def wfbuV2Go (old expected timeout interval : ℚ) : List BalResp → ℚ → Option ℚ
  | [], _ => none
  | r :: rest, el =>
    if el < timeout then
      match r with
      | .httpFail => wfbuV2Go old expected timeout interval rest (qAdd el interval)
      | .noCash =>
        if qAbs (qSub (qSub 0 old) expected) < 2 then some 0
        else wfbuV2Go old expected timeout interval rest (qAdd el interval)
      | .cash c =>
        if qAbs (qSub (qSub c old) expected) < 2 then some c
        else wfbuV2Go old expected timeout interval rest (qAdd el interval)
    else none

/-- Entry point of the later definition. -/
def wait_for_balance_update_v2 (rs : List BalResp) (old expected timeout interval : ℚ) :
    Option ℚ :=
  wfbuV2Go old expected timeout interval rs 0

/-- Python name binding: the second def statement shadows the first, so the
name in effect for every caller is the later definition. -/
def wait_for_balance_update (rs : List BalResp) (old expected timeout interval : ℚ) :
    Option ℚ :=
  wait_for_balance_update_v2 rs old expected timeout interval

/-- State of the TastytradeAPI client: session token and whether the
underlying HTTP session was closed. -/
structure ApiState where
  token : Option String
  closed : Bool
  deriving DecidableEq

/-- The body of the try block of TastytradeAPI.logout: the session DELETE,
which may raise. -/
def tt_logout_body (delete_fails : Bool) : Except String Unit :=
  if delete_fails then Except.error "connection error" else Except.ok ()

/-- TastytradeAPI.logout (tt_risk_reversal_planner/tastytrade_api.py): early
return when no token; otherwise the DELETE is tried, any exception is caught
and logged, and the finally block clears the token and closes the session. -/
def tt_logout (delete_fails : Bool) (st : ApiState) : Except String ApiState :=
  if st.token = none then Except.ok st
  else
    match tt_logout_body delete_fails with
    | Except.ok _ => Except.ok ⟨none, true⟩
    | Except.error _ => Except.ok ⟨none, true⟩

/-- How a script run exits. -/
inductive ExitKind
  | normal : ExitKind
  | cancelled : ExitKind
  | raised : ExitKind
  deriving DecidableEq

/-- Environment of a planner-script main run: whether login succeeds and
whether the planning body raises (any step after login). -/
structure PlannerEnv where
  login_ok : Bool
  body_raises : Bool
  deriving DecidableEq

/-- The try block of the planner script's main: login, then the planning
body; either may raise. -/
def planner_try_body (e : PlannerEnv) : Except String Unit :=
  if ¬ e.login_ok then Except.error "login failed"
  else if e.body_raises then Except.error "error during planning"
  else Except.ok ()

/-- main of tt_risk_reversal_planner/tt-tqqq-risk-reversal-1.py: the whole
body sits in try/except/finally — every exception is caught and logged, and
the finally block calls api.logout() whenever is_logged_in holds.
Returns the exit kind and the number of logout invocations. -/
def planner_main (e : PlannerEnv) : ExitKind × ℕ :=
  let exit :=
    match planner_try_body e with
    | Except.ok _ => ExitKind.normal
    | Except.error _ => ExitKind.normal
  (exit, if e.login_ok then 1 else 0)

/-- Environment of an SGOV-script main run. Remote steps are abstracted to
their control-flow outcome (raise or not); the pure trade decision, which
cannot raise, enters as the action/qty it computes. -/
structure SgovEnv where
  market_open : Bool
  login_ok : Bool
  balances_ok : Bool
  position_raises : Bool
  price_ok : Bool
  action : Option String
  qty : ℤ
  auto : Bool
  dry_run : Bool
  user_confirms : Bool
  place_ok : Bool
  relogin_ok : Bool
  balances2_ok : Bool
  position2_raises : Bool
  deriving DecidableEq

/-- main of tt-tut5CashBalanceAfterSGOV.py, control flow of the lines after
the calendar setup: login, snapshot fetches (each may raise, uncaught — the
script has no try/finally), the trade decision, the confirm prompt (its
cancel path logs out and returns), place_order, the verification cycle
(logout, relogin, fresh snapshots, compare), and the final logout.
Returns the exit kind and the number of logout invocations. -/
def sgov_main (e : SgovEnv) : ExitKind × ℕ :=
  if ¬ e.market_open then (ExitKind.normal, 0)
  else if ¬ e.login_ok then (ExitKind.raised, 0)
  else if ¬ e.balances_ok then (ExitKind.raised, 0)
  else if e.position_raises then (ExitKind.raised, 0)
  else if ¬ e.price_ok then (ExitKind.raised, 0)
  else
    match e.action with
    | none => (ExitKind.normal, 1)
    | some _ =>
      if e.qty ≤ 0 then (ExitKind.normal, 1)
      else if ¬ e.auto ∧ ¬ e.dry_run ∧ ¬ e.user_confirms then (ExitKind.cancelled, 1)
      else if e.dry_run then (ExitKind.normal, 1)
      else if ¬ e.place_ok then (ExitKind.raised, 0)
      else if ¬ e.relogin_ok then (ExitKind.raised, 1)
      else if ¬ e.balances2_ok then (ExitKind.raised, 1)
      else if e.position2_raises then (ExitKind.raised, 1)
      else (ExitKind.normal, 2)

/-- A run in which login succeeds and the balances fetch then raises. -/
def envBalancesFail : SgovEnv :=
  { market_open := true, login_ok := true, balances_ok := false,
    position_raises := false, price_ok := true, action := none, qty := 0,
    auto := false, dry_run := false, user_confirms := false, place_ok := true,
    relogin_ok := true, balances2_ok := true, position2_raises := false }

/-- A run that places and verifies an order with no failures. -/
def envNormalRun : SgovEnv :=
  { market_open := true, login_ok := true, balances_ok := true,
    position_raises := false, price_ok := true, action := some "Buy", qty := 3,
    auto := true, dry_run := false, user_confirms := true, place_ok := true,
    relogin_ok := true, balances2_ok := true, position2_raises := false }

/-- A run in which the user declines the confirm prompt. -/
def envCancelRun : SgovEnv :=
  { market_open := true, login_ok := true, balances_ok := true,
    position_raises := false, price_ok := true, action := some "Sell", qty := 2,
    auto := false, dry_run := false, user_confirms := false, place_ok := true,
    relogin_ok := true, balances2_ok := true, position2_raises := false }

/-- A run in which no trade is needed. -/
def envNoTrade : SgovEnv :=
  { market_open := true, login_ok := true, balances_ok := true,
    position_raises := false, price_ok := true, action := none, qty := 0,
    auto := false, dry_run := false, user_confirms := false, place_ok := true,
    relogin_ok := true, balances2_ok := true, position2_raises := false }

/-
  Bridge lemmas: the kernel-computable rational operations agree with the
  standard ones.
-/

lemma den_cast_ne_zero (a : ℚ) : (a.den : ℚ) ≠ 0 := by
  exact_mod_cast a.den_nz

lemma qAdd_eq (a b : ℚ) : qAdd a b = a + b := by
  rw [qAdd, Rat.divInt_eq_div]
  conv_rhs => rw [← Rat.num_div_den a, ← Rat.num_div_den b]
  rw [div_add_div _ _ (den_cast_ne_zero a) (den_cast_ne_zero b)]
  push_cast
  ring_nf

lemma qSub_eq (a b : ℚ) : qSub a b = a - b := by
  rw [qSub, Rat.divInt_eq_div]
  conv_rhs => rw [← Rat.num_div_den a, ← Rat.num_div_den b]
  rw [div_sub_div _ _ (den_cast_ne_zero a) (den_cast_ne_zero b)]
  push_cast
  ring_nf

lemma qMul_eq (a b : ℚ) : qMul a b = a * b := by
  rw [qMul, Rat.divInt_eq_div]
  conv_rhs => rw [← Rat.num_div_den a, ← Rat.num_div_den b]
  rw [div_mul_div_comm]
  push_cast
  ring_nf

lemma qAbs_eq (a : ℚ) : qAbs a = |a| := by
  rw [qAbs]
  split_ifs with h
  · exact (abs_of_neg h).symm
  · exact (abs_of_nonneg (le_of_not_lt h)).symm

lemma divInt_one_thousandth : Rat.divInt 1 1000 = 1/1000 := by
  rw [Rat.divInt_eq_div]
  norm_num

/-
  Invariants of the fill-deduplication loop.
-/

lemma processFills_seen_mono (fills : List Fill) : ∀ (seen : List String) (x : String),
    x ∈ seen → x ∈ (processFills seen fills).1 := by
  induction fills with
  | nil => intro seen x hx; simpa [processFills] using hx
  | cons f fs ih =>
    intro seen x hx
    simp only [processFills]
    split_ifs with h
    · exact ih (f.fid :: seen) x (List.mem_cons_of_mem _ hx)
    · exact ih seen x hx

lemma processFills_printed (fills : List Fill) : ∀ (seen : List String),
    (∀ f, f ∈ (processFills seen fills).2 →
      f.fid ∉ seen ∧ f.fid ∈ (processFills seen fills).1)
    ∧ ((processFills seen fills).2.map Fill.fid).Nodup := by
  induction fills with
  | nil =>
    intro seen
    refine ⟨fun f hf => absurd hf (by simp [processFills]), by simp [processFills]⟩
  | cons f fs ih =>
    intro seen
    simp only [processFills]
    split_ifs with h
    · obtain ⟨h1, h2⟩ := h
      refine ⟨?_, ?_⟩
      · intro g hg
        simp only [List.mem_cons] at hg
        rcases hg with rfl | hg
        · exact ⟨h2, processFills_seen_mono fs (g.fid :: seen) g.fid (List.mem_cons_self _ _)⟩
        · obtain ⟨hnotin, hin⟩ := (ih (f.fid :: seen)).1 g hg
          exact ⟨fun hs => hnotin (List.mem_cons_of_mem _ hs), hin⟩
      · rw [List.map_cons, List.nodup_cons]
        refine ⟨?_, (ih (f.fid :: seen)).2⟩
        intro hmem
        obtain ⟨g, hg, hfg⟩ := List.mem_map.mp hmem
        obtain ⟨hnotin, _⟩ := (ih (f.fid :: seen)).1 g hg
        exact hnotin (hfg ▸ List.mem_cons_self _ _)
    · exact ih seen

lemma debugGo_seen_mono (t : ℚ) (rs : List DebugResp) :
    ∀ (el : ℚ) (last : Option String) (seen : List String) (x : String),
      x ∈ seen → x ∈ (debugGo t rs el last seen).seenAfter := by
  induction rs with
  | nil => intro el last seen x hx; simpa [debugGo] using hx
  | cons r rest ih =>
    intro el last seen x hx
    cases r with
    | err =>
      simp only [debugGo]
      split_ifs with hel
      · exact ih _ _ _ _ hx
      · simpa using hx
    | data st fills =>
      simp only [debugGo]
      split_ifs with hel hterm
      · exact processFills_seen_mono fills seen x hx
      · exact ih _ _ _ _ (processFills_seen_mono fills seen x hx)
      · simpa using hx

lemma debugGo_printed (t : ℚ) (rs : List DebugResp) :
    ∀ (el : ℚ) (last : Option String) (seen : List String),
      (∀ f, f ∈ (debugGo t rs el last seen).printed →
        f.fid ∉ seen ∧ f.fid ∈ (debugGo t rs el last seen).seenAfter)
      ∧ ((debugGo t rs el last seen).printed.map Fill.fid).Nodup := by
  induction rs with
  | nil =>
    intro el last seen
    refine ⟨fun f hf => absurd hf (by simp [debugGo]), by simp [debugGo]⟩
  | cons r rest ih =>
    intro el last seen
    cases r with
    | err =>
      simp only [debugGo]
      split_ifs with hel
      · exact ih _ _ _
      · refine ⟨fun f hf => absurd hf (by simp), by simp⟩
    | data st fills =>
      simp only [debugGo]
      split_ifs with hel hterm
      · exact processFills_printed fills seen
      · refine ⟨?_, ?_⟩
        · intro f hf
          rw [List.mem_append] at hf
          rcases hf with hf | hf
          · obtain ⟨hno, hin⟩ := (processFills_printed fills seen).1 f hf
            exact ⟨hno, debugGo_seen_mono t rest _ _ _ _ hin⟩
          · obtain ⟨hno, hin⟩ := (ih _ _ _).1 f hf
            exact ⟨fun hs => hno (processFills_seen_mono fills seen _ hs), hin⟩
        · rw [List.map_append, List.nodup_append]
          refine ⟨(processFills_printed fills seen).2, (ih _ _ _).2, ?_⟩
          intro x hx1 hx2
          obtain ⟨g, hg, rfl⟩ := List.mem_map.mp hx1
          obtain ⟨g2, hg2, heq⟩ := List.mem_map.mp hx2
          obtain ⟨hno2, _⟩ := (ih _ _ _).1 g2 hg2
          obtain ⟨_, hin1⟩ := (processFills_printed fills seen).1 g hg
          exact hno2 (heq ▸ hin1)
      · refine ⟨fun f hf => absurd hf (by simp), by simp⟩

/-
  Poll-count bounds: neither poller issues a request after its first
  terminal response.
-/

lemma debugGo_polls (t : ℚ) (rs : List DebugResp) :
    ∀ (el : ℚ) (last : Option String) (seen : List String),
      (debugGo t rs el last seen).polls ≤ firstTerminalIdx rs + 1 := by
  induction rs with
  | nil => intro el last seen; simp [debugGo, firstTerminalIdx]
  | cons r rest ih =>
    intro el last seen
    cases r with
    | err =>
      simp only [debugGo, firstTerminalIdx]
      split_ifs with hel
      · exact Nat.succ_le_succ (ih _ _ _)
      · exact Nat.zero_le _
    | data st fills =>
      simp only [debugGo, firstTerminalIdx]
      split_ifs with hel hterm <;>
        first
          | exact Nat.le_add_left 1 _
          | exact Nat.succ_le_succ (ih _ _ _)
          | exact Nat.zero_le _

lemma wfofGo_polls (qty t : ℚ) (rs : List OrdResp) :
    ∀ (el : ℚ) (consec : ℕ) (fq : ℚ),
      (wfofGo qty t rs el consec fq).polls ≤ wfofFirstTerminalIdx qty rs + 1 := by
  induction rs with
  | nil => intro el consec fq; simp [wfofGo, wfofFirstTerminalIdx]
  | cons r rest ih =>
    intro el consec fq
    cases r with
    | err =>
      rw [show wfofFirstTerminalIdx qty (OrdResp.err :: rest)
            = wfofFirstTerminalIdx qty rest + 1 from by
          simp [wfofFirstTerminalIdx, wfofTerminalResp]]
      simp only [wfofGo]
      split_ifs with hel
      · exact Nat.succ_le_succ (ih _ _ _)
      · exact Nat.zero_le _
    | resp code parsed =>
      cases parsed with
      | none =>
        rw [show wfofFirstTerminalIdx qty (OrdResp.resp code none :: rest)
              = wfofFirstTerminalIdx qty rest + 1 from by
            simp [wfofFirstTerminalIdx, wfofTerminalResp]]
        simp only [wfofGo]
        split_ifs with hel h401 h3 <;>
          first
            | exact Nat.le_add_left 1 _
            | exact Nat.succ_le_succ (ih _ _ _)
            | exact Nat.zero_le _
      | some info =>
        by_cases hterm : wfofTerminalResp qty (.resp code (some info)) = true
        · rw [show wfofFirstTerminalIdx qty (OrdResp.resp code (some info) :: rest)
                = 0 from by rw [wfofFirstTerminalIdx, if_pos hterm]]
          simp only [wfofTerminalResp, Bool.and_eq_true, Bool.or_eq_true, beq_iff_eq,
            decide_eq_true_eq] at hterm
          obtain ⟨hcode, hor⟩ := hterm
          simp only [wfofGo]
          split_ifs with hel h401 h3 h200 hfill hrej
          · exact Nat.le_add_left 1 0
          · exact absurd hcode (by simp [h401])
          · exact absurd hcode h200
          · exact Nat.le_add_left 1 0
          · exact Nat.le_add_left 1 0
          · exfalso
            rcases hor with (hf | hr) | hc
            · exact hfill hf
            · exact hrej (Or.inl hr)
            · exact hrej (Or.inr hc)
          · exact Nat.zero_le _
        · rw [show wfofFirstTerminalIdx qty (OrdResp.resp code (some info) :: rest)
                = wfofFirstTerminalIdx qty rest + 1 from by
              rw [wfofFirstTerminalIdx, if_neg hterm]]
          simp only [wfofGo]
          split_ifs with hel h401 h3 h200 hfill hrej <;>
            first
              | exact Nat.le_add_left 1 _
              | exact Nat.succ_le_succ (ih _ _ _)
              | exact Nat.zero_le _

/-
  A successful return of wait_for_order_fill always carries a filled
  quantity within the 0.001 tolerance of the requested quantity.
-/

lemma wfofGo_success (qty t : ℚ) (rs : List OrdResp) :
    ∀ (el : ℚ) (consec : ℕ) (fq : ℚ),
      (wfofGo qty t rs el consec fq).success = true →
      qAbs (qSub (wfofGo qty t rs el consec fq).lastFilledQty qty) < Rat.divInt 1 1000 := by
  induction rs with
  | nil => intro el consec fq h; simp [wfofGo] at h
  | cons r rest ih =>
    intro el consec fq h
    cases r with
    | err =>
      simp only [wfofGo] at h ⊢
      split_ifs at h ⊢ with hel
      exact ih _ _ _ h
    | resp code parsed =>
      cases parsed with
      | none =>
        simp only [wfofGo] at h ⊢
        split_ifs at h ⊢ with hel h401 h3
        all_goals exact ih _ _ _ h
      | some info =>
        simp only [wfofGo] at h ⊢
        split_ifs at h ⊢ with hel h401 h3 h200 hfill hrej
        · exact ih _ _ _ h
        · exact ih _ _ _ h
        · exact hfill.2
        · exact ih _ _ _ h

/-- C1: on root "T", expiry "2025-12-26", type "C", strike 27.0, the
position_planner builder produces the 21-character symbol the spec requires,
while the mono-script builder produces an 18-character symbol (its padding
string holds only two spaces) and the symbol-test builder trips its own
length-21 assertion (modelled as none). -/
theorem occ_builder_results :
    PositionPlanner.build_occ "T".toList "2025-12-26".toList "C".toList 27
      = "T     251226C00027000".toList
    ∧ (PositionPlanner.build_occ "T".toList "2025-12-26".toList "C".toList 27).length = 21
    ∧ TqqqMono.build_occ "T".toList "2025-12-26".toList "C".toList 27
      = "T  251226C00027000".toList
    ∧ (TqqqMono.build_occ "T".toList "2025-12-26".toList "C".toList 27).length = 18
    ∧ SymbolsTest.build_option_symbol "T".toList "2025-12-26".toList "C".toList 27 = none := by
  refine ⟨by decide, by decide, by decide, by decide, by decide⟩

/-- C2 (amended): wait_for_order_fill reports a successful fill only with an
accumulated filled quantity within 0.001 of the requested quantity, and a
Filled status whose filled quantity does not match is not reported as a
success (the run falls through to the timeout path); the executor's
debug_order_status, by contrast, announces a full fill on the Filled status
alone with no quantity comparison. -/
theorem fill_success_requires_qty_match :
    (∀ (rs : List OrdResp) (qty t : ℚ),
        (wait_for_order_fill rs qty t).success = true →
        |(wait_for_order_fill rs qty t).lastFilledQty - qty| < 1/1000)
    ∧ (wait_for_order_fill [OrdResp.resp 200 (some ⟨some "Filled", 40, none⟩)] 45 60).success
        = false
    ∧ (wait_for_order_fill [OrdResp.resp 200 (some ⟨some "Filled", 40, none⟩)] 45 60).timedOut
        = true := by
  refine ⟨fun rs qty t h => ?_, by decide, by decide⟩
  have hq := wfofGo_success qty t rs 0 0 0 h
  rwa [qAbs_eq, qSub_eq, divInt_one_thousandth] at hq

/-- Witness for C2: a run whose single response is Filled with the exact
requested quantity returns success, and the theorem yields the tolerance
bound at that input. -/
theorem fill_success_requires_qty_match_witness :
    |(wait_for_order_fill
        [OrdResp.resp 200 (some ⟨some "Filled", 45, some (Rat.divInt 991 20)⟩)]
        45 60).lastFilledQty - 45| < 1/1000 :=
  fill_success_requires_qty_match.1
    [OrdResp.resp 200 (some ⟨some "Filled", 45, some (Rat.divInt 991 20)⟩)] 45 60 (by decide)

/-- C2 counterexample: the executor's tracker announces that the order is
fully filled on a bare Filled status with an empty fill list — the
accumulated printed quantity is 0, and no requested quantity (such as the
spec scenario's 45) is consulted at all. -/
theorem debug_fully_filled_without_qty_check :
    announcesFullyFilled
        (debug_order_status "904" [DebugResp.data (some "Filled") []] 30 []) = true
    ∧ totalQty (debug_order_status "904" [DebugResp.data (some "Filled") []] 30 []).printed = 0
    ∧ (0 : ℚ) ≠ 45 := by
  refine ⟨by decide, by decide, by decide⟩

/-- C3 (amended): each tracker returns at the first response that is terminal
for it and issues no poll afterwards — debug_order_status stops on
Filled, Rejected, Cancelled or Expired, wait_for_order_fill on Filled meeting
the quantity condition, Rejected or Canceled; on the scripted sequence
[Pending, Pending, Filled(qty=45)] with requested quantity 45 both stop at
the third poll, wait_for_order_fill with success and filled quantity 45. -/
theorem tracker_stops_at_terminal :
    (∀ (oid : String) (rs : List DebugResp) (t : ℚ) (s0 : List String),
        (debug_order_status oid rs t s0).polls ≤ firstTerminalIdx rs + 1)
    ∧ (∀ (rs : List OrdResp) (qty t : ℚ),
        (wait_for_order_fill rs qty t).polls ≤ wfofFirstTerminalIdx qty rs + 1)
    ∧ (wait_for_order_fill [OrdResp.resp 200 (some ⟨some "Pending", 0, none⟩),
        OrdResp.resp 200 (some ⟨some "Pending", 0, none⟩),
        OrdResp.resp 200 (some ⟨some "Filled", 45, some (Rat.divInt 991 20)⟩)] 45 60).success
      = true
    ∧ (wait_for_order_fill [OrdResp.resp 200 (some ⟨some "Pending", 0, none⟩),
        OrdResp.resp 200 (some ⟨some "Pending", 0, none⟩),
        OrdResp.resp 200 (some ⟨some "Filled", 45, some (Rat.divInt 991 20)⟩)] 45 60).lastFilledQty
      = 45
    ∧ (wait_for_order_fill [OrdResp.resp 200 (some ⟨some "Pending", 0, none⟩),
        OrdResp.resp 200 (some ⟨some "Pending", 0, none⟩),
        OrdResp.resp 200 (some ⟨some "Filled", 45, some (Rat.divInt 991 20)⟩)] 45 60).polls
      = 3
    ∧ (debug_order_status "904" [DebugResp.data (some "Pending") [],
        DebugResp.data (some "Pending") [],
        DebugResp.data (some "Filled") [⟨"F1", 45, 10, "ts"⟩]] 30 []).outcome
      = DebugOutcome.finished (some "Filled")
    ∧ (debug_order_status "904" [DebugResp.data (some "Pending") [],
        DebugResp.data (some "Pending") [],
        DebugResp.data (some "Filled") [⟨"F1", 45, 10, "ts"⟩]] 30 []).polls = 3
    ∧ totalQty (debug_order_status "904" [DebugResp.data (some "Pending") [],
        DebugResp.data (some "Pending") [],
        DebugResp.data (some "Filled") [⟨"F1", 45, 10, "ts"⟩]] 30 []).printed = 45 := by
  refine ⟨fun oid rs t s0 => debugGo_polls t rs 0 none s0,
    fun rs qty t => wfofGo_polls qty t rs 0 0 0,
    by decide, by decide, by decide, by decide, by decide, by decide⟩

/-- C3 counterexample: "Expired" is one of the statuses the claim lists as
terminal, yet wait_for_order_fill polls again after receiving it: a run whose
responses both report Expired issues two polls, and a run with a single
Expired response ends on the timeout path instead of a terminal return. -/
theorem wfof_polls_again_after_expired :
    (wait_for_order_fill [OrdResp.resp 200 (some ⟨some "Expired", 0, none⟩),
        OrdResp.resp 200 (some ⟨some "Expired", 0, none⟩)] 45 60).polls = 2
    ∧ (wait_for_order_fill [OrdResp.resp 200 (some ⟨some "Expired", 0, none⟩)] 45 60).timedOut
        = true := by
  refine ⟨by decide, by decide⟩

/-- C4: three consecutive 401 poll responses make wait_for_order_fill return
the not-confirmed (False, None) outcome after exactly three polls and 4
seconds of elapsed time — strictly before any timeout larger than 4 seconds
— regardless of the responses scripted after them. -/
theorem wfof_aborts_after_three_401 (rest : List OrdResp) (qty t : ℚ) (ht : 4 < t) :
    wait_for_order_fill (OrdResp.resp 401 none :: OrdResp.resp 401 none ::
        OrdResp.resp 401 none :: rest) qty t
      = ⟨false, none, 3, 4, false, 0⟩
    ∧ (4 : ℚ) < t := by
  have e2 : qAdd 0 2 = (2 : ℚ) := by rw [qAdd_eq]; norm_num
  have e4 : qAdd (qAdd 0 2) 2 = (4 : ℚ) := by rw [e2, qAdd_eq]; norm_num
  have h0 : (0 : ℚ) < t := by linarith
  have h2 : qAdd 0 2 < t := by rw [e2]; linarith
  have h4 : qAdd (qAdd 0 2) 2 < t := by rw [e4]; linarith
  refine ⟨?_, ht⟩
  unfold wait_for_order_fill
  simp only [wfofGo, if_pos h0, if_pos h2, if_pos h4]
  norm_num [e4]

/-- Witness for C4: the three-401 run with requested quantity 45 and the
source's default 60-second timeout. -/
theorem wfof_aborts_after_three_401_witness :
    wait_for_order_fill [OrdResp.resp 401 none, OrdResp.resp 401 none, OrdResp.resp 401 none]
        45 60
      = ⟨false, none, 3, 4, false, 0⟩
    ∧ (4 : ℚ) < 60 :=
  wfof_aborts_after_three_401 [] 45 60 (by norm_num)

/-- C5: in every debug_order_status run the printed fill ids are pairwise
distinct and disjoint from the ids already in seen_fills, and on a run whose
two polls both carry the same fill id F1 with quantity 45, the fill is
printed once and the total printed quantity is 45, not 90. -/
theorem debug_fill_dedup :
    (∀ (oid : String) (rs : List DebugResp) (t : ℚ) (s0 : List String),
        ((debug_order_status oid rs t s0).printed.map Fill.fid).Nodup
        ∧ ∀ f, f ∈ (debug_order_status oid rs t s0).printed → f.fid ∉ s0)
    ∧ (debug_order_status "904" [DebugResp.data (some "Pending") [⟨"F1", 45, 10, "ts"⟩],
        DebugResp.data (some "Filled") [⟨"F1", 45, 10, "ts"⟩]] 30 []).printed
      = [⟨"F1", 45, 10, "ts"⟩]
    ∧ totalQty (debug_order_status "904" [DebugResp.data (some "Pending") [⟨"F1", 45, 10, "ts"⟩],
        DebugResp.data (some "Filled") [⟨"F1", 45, 10, "ts"⟩]] 30 []).printed = 45 := by
  refine ⟨fun oid rs t s0 =>
    ⟨(debugGo_printed t rs 0 none s0).2,
      fun f hf => ((debugGo_printed t rs 0 none s0).1 f hf).1⟩,
    by decide, by decide⟩

/-- Witness for C5: applying the deduplication theorem to the concrete
duplicate-fill run shows the printed fill's id was not in the (empty)
initial seen set. -/
theorem debug_fill_dedup_witness :
    (⟨"F1", (45 : ℚ), 10, "ts"⟩ : Fill).fid ∉ ([] : List String) :=
  (debug_fill_dedup.1 "904" [DebugResp.data (some "Pending") [⟨"F1", 45, 10, "ts"⟩],
      DebugResp.data (some "Filled") [⟨"F1", 45, 10, "ts"⟩]] 30 []).2
    ⟨"F1", 45, 10, "ts"⟩ (by decide)

/-- C6: the reconciliation comparison reports effectively-filled whenever cash
moved in the expected direction by more than any nonnegative tolerance, or
whenever the position moved in the expected direction — either signal alone —
and reports not-yet-filled when cash and position are both unchanged; in
particular a Buy with cash 1000 before and 940 after and the position
unchanged is effectively filled. -/
theorem reconcile_check_decision :
    (∀ tol cb ca pb pa : ℚ, 0 ≤ tol → tol < cb - ca →
        reconcile_filled "Buy" cb ca pb pa = true)
    ∧ (∀ cb ca pb pa : ℚ, pb < pa → reconcile_filled "Buy" cb ca pb pa = true)
    ∧ (∀ tol cb ca pb pa : ℚ, 0 ≤ tol → tol < ca - cb →
        reconcile_filled "Sell" cb ca pb pa = true)
    ∧ (∀ cb ca pb pa : ℚ, pa < pb → reconcile_filled "Sell" cb ca pb pa = true)
    ∧ (∀ (a : String) (cb pb : ℚ), reconcile_filled a cb cb pb pb = false)
    ∧ reconcile_filled "Buy" 1000 940 0 0 = true := by
  refine ⟨?_, ?_, ?_, ?_, ?_, by decide⟩
  · intro tol cb ca pb pa h0 hc
    have hlt : ca < cb := by linarith
    simp [reconcile_filled, Bool.or_eq_true, decide_eq_true_eq]
    exact Or.inl hlt
  · intro cb ca pb pa hp
    simp [reconcile_filled, Bool.or_eq_true, decide_eq_true_eq]
    exact Or.inr hp
  · intro tol cb ca pb pa h0 hc
    have hlt : cb < ca := by linarith
    simp [reconcile_filled, Bool.or_eq_true, decide_eq_true_eq]
    exact Or.inl hlt
  · intro cb ca pb pa hp
    simp [reconcile_filled, Bool.or_eq_true, decide_eq_true_eq]
    exact Or.inr hp
  · intro a cb pb
    by_cases h : a = "Sell" <;> simp [reconcile_filled, h]

/-- Witness for C6: tolerance 1 with a Buy whose cash moved from 1000 to 940
and position unchanged at 5. -/
theorem reconcile_check_decision_witness :
    reconcile_filled "Buy" 1000 940 5 5 = true :=
  reconcile_check_decision.1 1 1000 940 5 5 (by norm_num) (by norm_num)

/-- C7 counterexample: in a run where login succeeds and the balances fetch
then raises, the SGOV main exits by exception with zero logout invocations,
so the session token is not released on that exit path. -/
theorem sgov_exception_path_skips_logout :
    sgov_main envBalancesFail = (ExitKind.raised, 0)
    ∧ envBalancesFail.login_ok = true := by
  refine ⟨by decide, by decide⟩

/-- C7 (amended): TastytradeAPI.logout never raises (any failure of the
session DELETE is caught, and the finally block clears the token); the
planner script's main swallows every exception and its finally block logs out
exactly when login succeeded; the SGOV script logs out on its
normal-completion and user-cancellation paths (but, per the counterexample,
not on exception paths). -/
theorem logout_cleanup_behavior :
    (∀ (df : Bool) (st : ApiState), ∃ st', tt_logout df st = Except.ok st')
    ∧ (∀ e : PlannerEnv, planner_main e = (ExitKind.normal, if e.login_ok then 1 else 0))
    ∧ sgov_main envNormalRun = (ExitKind.normal, 2)
    ∧ sgov_main envCancelRun = (ExitKind.cancelled, 1)
    ∧ sgov_main envNoTrade = (ExitKind.normal, 1) := by
  refine ⟨fun df st => ?_, fun e => ?_, by decide, by decide, by decide⟩
  · unfold tt_logout tt_logout_body
    by_cases h : st.token = none
    · rw [if_pos h]
      exact ⟨st, rfl⟩
    · rw [if_neg h]
      cases df
      · exact ⟨⟨none, true⟩, rfl⟩
      · exact ⟨⟨none, true⟩, rfl⟩
  · unfold planner_main planner_try_body
    cases hl : e.login_ok <;> cases hb : e.body_raises <;> simp [hl, hb]

/-- C8: the SDK submitter's sell payload carries price-effect Credit and its
buy payload Debit at any positive limit price, and the SGOV market-order
submitter derives Credit for a Sell action and Debit for a Buy action. -/
theorem price_effect_matches_side :
    (∀ (q : ℕ) (lp : ℚ) (tif : String), 0 < lp →
        (place_sell_order_payload q lp tif).price_effect = "Credit"
        ∧ (place_buy_order_payload q lp tif).price_effect = "Debit")
    ∧ (∀ (sym : String) (q : ℕ),
        (place_order_payload "Sell" sym q).price_effect = "Credit"
        ∧ (place_order_payload "Buy" sym q).price_effect = "Debit") := by
  exact ⟨fun q lp tif _ => ⟨rfl, rfl⟩, fun sym q => ⟨rfl, rfl⟩⟩

/-- Witness for C8: one share at limit price 50, day order. -/
theorem price_effect_matches_side_witness :
    (place_sell_order_payload 1 50 "Day").price_effect = "Credit"
    ∧ (place_buy_order_payload 1 50 "Day").price_effect = "Debit" :=
  price_effect_matches_side.1 1 50 "Day" (by norm_num)

/-- C9: the two wait_for_balance_update definitions are not behaviorally
equivalent: on polls reporting cash 1060 against initial cash 1000 and
expected change 58.5 (a delta 1.5 away from expected), the earlier definition
rejects every poll under its 1.00 tolerance on the rounded diff and times out
with none, while the later definition accepts the first poll under its
strict 2.0 tolerance and returns 1060; the shadowing makes the later
definition the one bound to the name for all callers. -/
theorem balance_update_defs_not_equivalent :
    wait_for_balance_update_v1 (List.replicate 30 (BalResp.cash 1060)) 1000
        (Rat.divInt 117 2) 30 1 1 = none
    ∧ wait_for_balance_update_v2 (List.replicate 30 (BalResp.cash 1060)) 1000
        (Rat.divInt 117 2) 30 2 = some 1060
    ∧ wait_for_balance_update = wait_for_balance_update_v2 := by
  refine ⟨by decide, by decide, rfl⟩

/-- C10: the seen-fills set persists across calls (it is an attribute on the
function object, modelled by threading the final set of one call into the
next), so a fill id recorded during a first call is never printed again by a
second call, even when the two calls track different order ids. -/
theorem seen_fills_persist_across_calls
    (oid1 oid2 : String) (rs1 rs2 : List DebugResp) (t1 t2 : ℚ)
    (s0 : List String) (x : String)
    (hx : x ∈ (debug_order_status oid1 rs1 t1 s0).seenAfter) :
    x ∉ ((debug_order_status oid2 rs2 t2
        (debug_order_status oid1 rs1 t1 s0).seenAfter).printed.map Fill.fid) := by
  intro hmem
  obtain ⟨f, hf, rfl⟩ := List.mem_map.mp hmem
  exact ((debugGo_printed t2 rs2 0 none _).1 f hf).1 hx

/-- Witness for C10: the id F1 recorded during a first call (order 904) is
not printed by a second call (order 905) whose poll carries the same id. -/
theorem seen_fills_persist_across_calls_witness :
    "F1" ∉ ((debug_order_status "905" [DebugResp.data (some "Filled") [⟨"F1", 45, 10, "ts"⟩]] 30
        (debug_order_status "904" [DebugResp.data (some "Pending") [⟨"F1", 45, 10, "ts"⟩]] 30
          []).seenAfter).printed.map Fill.fid) :=
  seen_fills_persist_across_calls "904" "905"
    [DebugResp.data (some "Pending") [⟨"F1", 45, 10, "ts"⟩]]
    [DebugResp.data (some "Filled") [⟨"F1", 45, 10, "ts"⟩]]
    30 30 [] "F1" (by decide)

end TTBots
